import Mathlib

/-!
Verification of the LightCurve Connection & Streaming Resource Manager.

This file shallowly embeds the core of the Electron main process
(electron/main.ts, here src/unnamed/part_000) and of the Pulsar client
wrapper (src/services/pulsarClient.ts): the cluster registry, the
producer/consumer/reader registries, the streaming-consumer supervisor
with its cooperative receive loop, and process-wide teardown.

Pure request/response handlers are embedded as state-passing functions
returning the IPC envelope, the new registry state, and a trace of the
native calls they issue.  The streaming consumer loop and the
pause/stop handlers, which genuinely interleave, are embedded as a
small-step transition relation `SupStep` whose steps are the
synchronous segments between `await` points of the single-threaded
event loop.
-/

set_option maxHeartbeats 1000000

namespace LightCurve

/-- Response envelope of every IPC handler (main.ts 215-221):
`success(data)` or `error(message)`. -/
inductive IPCResponse (α : Type) where
  | success (data : α)
  | error (msg : String)
deriving Repr, DecidableEq

/-- Model of a JavaScript `Map` with string keys: the entry list in
insertion order (JS maps iterate in insertion order). -/
structure SMap (β : Type) where
  entries : List (String × β)
deriving Repr, DecidableEq

namespace SMap

/-- Lookup of a key in an entry list (first match). -/
def findEntry (k : String) : List (String × β) → Option β
  | [] => none
  | (k₁, v) :: rest => if k₁ = k then some v else findEntry k rest

/-- Map.get: the binding of `k`, if present. -/
def find? (m : SMap β) (k : String) : Option β :=
  findEntry k m.entries

/-- Map.has. -/
def hasKey (m : SMap β) (k : String) : Bool :=
  (m.find? k).isSome

/-- Update of a key in an entry list: replaces the first binding in
place, or appends when absent. -/
def setEntry (k : String) (v : β) : List (String × β) → List (String × β)
  | [] => [(k, v)]
  | (k₁, v₁) :: rest => if k₁ = k then (k, v) :: rest else (k₁, v₁) :: setEntry k v rest

/-- Map.set: replaces the binding in place if the key is present,
otherwise appends (JS insertion-order semantics). -/
def set (m : SMap β) (k : String) (v : β) : SMap β :=
  ⟨setEntry k v m.entries⟩

/-- Map.delete. -/
def erase (m : SMap β) (k : String) : SMap β :=
  ⟨m.entries.filter (fun kv => kv.1 ≠ k)⟩


/-- Map with no entries (also the result of Map.clear). -/
def empty : SMap β := ⟨[]⟩

/-- Keys in insertion order. -/
def keys (m : SMap β) : List String :=
  m.entries.map (·.1)

end SMap

/-- Message shape produced by the PulsarConsumer / PulsarReader wrappers
(pulsarClient.ts, interface PulsarMessage, 59-68).  `data` is the
UTF-8 decoded payload, `messageId` the stringified native id. -/
structure PulsarMessage where
  messageId : String
  data : String
  properties : List (String × String)
  publishTimestamp : Nat
  eventTimestamp : Nat
  redeliveryCount : Nat
  partitionKey : Option String
  topicName : String
deriving Repr, DecidableEq

/-- External wire shape pushed over the `messages:received` channel
(shared BrowsedMessage type; built at main.ts 736-744). -/
structure BrowsedMessage where
  messageId : String
  data : String
  properties : List (String × String)
  publishTimestamp : Nat
  eventTimestamp : Nat
  partitionKey : Option String
  topicName : String
deriving Repr, DecidableEq

/-- Conversion of a received message to the external wire shape
(main.ts 736-744: copies the fields, stringifying id and payload;
`redeliveryCount` is dropped). -/
def toBrowsedMessage (m : PulsarMessage) : BrowsedMessage :=
  { messageId := m.messageId
    data := m.data
    properties := m.properties
    publishTimestamp := m.publishTimestamp
    eventTimestamp := m.eventTimestamp
    partitionKey := m.partitionKey
    topicName := m.topicName }

/-- PulsarConsumer.receive_timeout (pulsarClient.ts 145-153): awaits the
native receive with a timeout and catches EVERY thrown error, returning
null.  The argument is the settled outcome of the underlying native
call: `Except.ok` a converted message, `Except.error` the message of
whatever the native call threw (a timeout or any broker error). -/
def PulsarConsumer.receive_timeout (nativeResult : Except String PulsarMessage) :
    Option PulsarMessage :=
  match nativeResult with
  | Except.ok msg => some msg
  | Except.error _ => none

/-- PulsarReader.readNext_timeout (pulsarClient.ts 213-221): same
catch-everything-return-null shape as receive_timeout. -/
def PulsarReader.readNext_timeout (nativeResult : Except String PulsarMessage) :
    Option PulsarMessage :=
  match nativeResult with
  | Except.ok msg => some msg
  | Except.error _ => none

/-- Connection parameters passed to cluster:connect (shared ClusterConfig
type; only the fields the handlers read are modeled — the auth material
is opaque to the registry logic). -/
structure ClusterConfig where
  clusterId : String
  name : String
  adminUrl : String
  serviceUrl : String
deriving Repr, DecidableEq

/-- State of a PulsarMessageClient (pulsarClient.ts 253-262): the sets of
derived wrapper objects it tracks (modeled by abstract tokens) and
whether the lazily-created native client exists (`client !== null`). -/
structure PulsarMessageClient where
  producers : List Nat
  consumers : List Nat
  readers : List Nat
  clientCreated : Bool
deriving Repr, DecidableEq

/-- A freshly constructed PulsarMessageClient (constructor at
pulsarClient.ts 260-262: no native client yet, all sets empty). -/
def PulsarMessageClient.fresh : PulsarMessageClient :=
  { producers := [], consumers := [], readers := [], clientCreated := false }

/-- Registry value of `connectedClusters` (main.ts 61-66).  The
PulsarAdmin capability carries no state relevant to the registry logic
and is not modeled as data; constructing it is pure. -/
structure ClusterConnection where
  config : ClusterConfig
  client : PulsarMessageClient
  connectedAt : Nat
deriving Repr, DecidableEq

/-- Entry of the `streamingConsumers` map (main.ts 639-645).  The native
consumer handle and the receiveLoop promise are modeled by the
supervisor transition system below. -/
structure StreamingConsumerEntry where
  consumerId : String
  paused : Bool
  stopRequested : Bool
deriving Repr, DecidableEq

/-- Module-level mutable registries of the main process
(main.ts 68-73 and 647-648).  Values of the one-shot producer,
one-shot consumer and reader maps are abstract native-handle tokens. -/
structure MainState where
  connectedClusters : SMap ClusterConnection
  producers : SMap Nat
  consumers : SMap Nat
  readers : SMap Nat
  streamingConsumers : SMap StreamingConsumerEntry
  producerIdCounter : Nat
  consumerIdCounter : Nat
deriving Repr, DecidableEq

/-- Shape returned by cluster:connect and cluster:list (shared
ConnectedCluster type, built at main.ts 315-322). -/
structure ConnectedCluster where
  clusterId : String
  name : String
  adminUrl : String
  serviceUrl : String
  connected : Bool
  connectedAt : Nat
deriving Repr, DecidableEq

/-- Error text of the template literal at main.ts 271. -/
def alreadyConnectedMsg (clusterId : String) : String :=
  "Cluster " ++ clusterId ++ " is already connected"

/-- Error text of the template literal at main.ts 334 (and every other
handler's is-not-connected guard). -/
def notConnectedMsg (clusterId : String) : String :=
  "Cluster " ++ clusterId ++ " is not connected"

/-- Error text of the catch at main.ts 345. -/
def disconnectFailedMsg (e : String) : String :=
  "Failed to disconnect cluster: " ++ e

/-- Error text of the consumer lookup guards at main.ts 687, 701, 854,
884 and 903. -/
def consumerNotFoundMsg (consumerId : String) : String :=
  "Consumer " ++ consumerId ++ " not found"

/-- Error text of the producer lookup guard at main.ts 812. -/
def producerNotFoundMsg (producerId : String) : String :=
  "Producer " ++ producerId ++ " not found"

/-- Error text of the reader lookup guard at main.ts 971. -/
def readerNotFoundMsg (readerId : String) : String :=
  "Reader " ++ readerId ++ " not found"

/-- Error text of the catch at main.ts 821. -/
def closeProducerFailedMsg (e : String) : String :=
  "Failed to close producer: " ++ e

/-- Error text of the catch at main.ts 912. -/
def closeConsumerFailedMsg (e : String) : String :=
  "Failed to close consumer: " ++ e

/-- Error text of the catch at main.ts 981. -/
def closeReaderFailedMsg (e : String) : String :=
  "Failed to close reader: " ++ e

/-- IPC handler cluster:connect (main.ts 267-328).  Checks the registry
first and returns the already-connected error without any further work;
otherwise constructs the admin and messaging capabilities (pure — no
network happens at connect time) and inserts the connection.
`now` stands for Date.now(). -/
def clusterConnect (st : MainState) (config : ClusterConfig) (now : Nat) :
    IPCResponse ConnectedCluster × MainState :=
  if st.connectedClusters.hasKey config.clusterId then
    (IPCResponse.error (alreadyConnectedMsg config.clusterId), st)
  else
    let connection : ClusterConnection :=
      { config := config, client := PulsarMessageClient.fresh, connectedAt := now }
    let st1 :=
      { st with connectedClusters := st.connectedClusters.set config.clusterId connection }
    (IPCResponse.success
      { clusterId := config.clusterId
        name := config.name
        adminUrl := config.adminUrl
        serviceUrl := config.serviceUrl
        connected := true
        connectedAt := now }, st1)

/-- Primitive effects of cluster:disconnect, in issue order: the await of
the messaging client aggregate close, and the registry delete. -/
inductive DisconnectEvt where
  | aggregateClose (id : String)
  | removeEntry (id : String)
deriving Repr, DecidableEq

/-- Effect of one disconnect event on the registries, used to express
what a lookup observes at intermediate points of the handler: the
aggregate close mutates no registry; the delete erases the entry. -/
def applyDisconnectEvt (st : MainState) (e : DisconnectEvt) : MainState :=
  match e with
  | DisconnectEvt.aggregateClose _ => st
  | DisconnectEvt.removeEntry id =>
      { st with connectedClusters := st.connectedClusters.erase id }

/-- IPC handler cluster:disconnect (main.ts 330-347), parameterized by
the settled outcome of `connection.client.close()`.  On a thrown close
the catch returns the error envelope and the delete is never reached. -/
def clusterDisconnect (st : MainState) (clusterId : String)
    (closeResult : Except String Unit) :
    IPCResponse Unit × MainState × List DisconnectEvt :=
  match st.connectedClusters.find? clusterId with
  | none => (IPCResponse.error (notConnectedMsg clusterId), st, [])
  | some _ =>
    match closeResult with
    | Except.ok _ =>
        (IPCResponse.success (),
         { st with connectedClusters := st.connectedClusters.erase clusterId },
         [DisconnectEvt.aggregateClose clusterId, DisconnectEvt.removeEntry clusterId])
    | Except.error e =>
        (IPCResponse.error (disconnectFailedMsg e), st,
         [DisconnectEvt.aggregateClose clusterId])

/-- Native-level effects of PulsarMessageClient.close, in issue order. -/
inductive ClientEvt where
  | wrappedProducerClose (t : Nat)
  | wrappedConsumerClose (t : Nat)
  | wrappedReaderClose (t : Nat)
  | nativeClientClose
deriving Repr, DecidableEq

/-- PulsarMessageClient.close (pulsarClient.ts 406-433): closes every
tracked producer wrapper (each close failure is caught and logged,
collect-and-continue) and clears the set; then every consumer wrapper;
then every reader wrapper; finally closes the native client if it was
ever created.  Because every individual close failure is swallowed, the
event sequence does not depend on which closes fail. -/
def PulsarMessageClient.closeAll (c : PulsarMessageClient) :
    PulsarMessageClient × List ClientEvt :=
  let pEvts := c.producers.map ClientEvt.wrappedProducerClose
  let cEvts := c.consumers.map ClientEvt.wrappedConsumerClose
  let rEvts := c.readers.map ClientEvt.wrappedReaderClose
  let clEvts := if c.clientCreated then [ClientEvt.nativeClientClose] else []
  ({ producers := [], consumers := [], readers := [], clientCreated := false },
   pEvts ++ cEvts ++ rEvts ++ clEvts)

/-- Cascade phase of an aggregate-close event (pulsarClient.ts 406-433):
producer wrappers (0), consumer wrappers (1), reader wrappers (2),
native client (3). -/
def clientPhase : ClientEvt → Nat
  | ClientEvt.wrappedProducerClose _ => 0
  | ClientEvt.wrappedConsumerClose _ => 1
  | ClientEvt.wrappedReaderClose _ => 2
  | ClientEvt.nativeClientClose => 3

/-- Native calls issued by the one-shot resource handlers, for stating
which handlers touch the broker at all. -/
inductive NativeCall where
  | producerCloseCall (id : String)
  | consumerAcknowledgeCall (id : String)
  | consumerCloseCall (id : String)
  | readerCloseCall (id : String)
deriving Repr, DecidableEq

/-- IPC handler consumer:acknowledge (main.ts 882-898): looks the
one-shot consumer up and, when present, returns the success envelope
without issuing ANY call on the native consumer (the body is an
acknowledged no-op, per the comment in the source); a missing id yields
the not-found envelope. -/
def consumerAcknowledge (st : MainState) (consumerId : String) (_messageId : String) :
    IPCResponse Unit × MainState × List NativeCall :=
  match st.consumers.find? consumerId with
  | none => (IPCResponse.error (consumerNotFoundMsg consumerId), st, [])
  | some _ => (IPCResponse.success (), st, [])

/-- IPC handler producer:close (main.ts 809-823), parameterized by the
settled outcome of the native `producer.close()`.  When the close
throws, the catch returns the error envelope and the `delete` line is
never reached, so the entry stays in the registry. -/
def producerClose (st : MainState) (producerId : String)
    (closeResult : Except String Unit) :
    IPCResponse Unit × MainState × List NativeCall :=
  match st.producers.find? producerId with
  | none => (IPCResponse.error (producerNotFoundMsg producerId), st, [])
  | some _ =>
    match closeResult with
    | Except.ok _ =>
        (IPCResponse.success (),
         { st with producers := st.producers.erase producerId },
         [NativeCall.producerCloseCall producerId])
    | Except.error e =>
        (IPCResponse.error (closeProducerFailedMsg e), st,
         [NativeCall.producerCloseCall producerId])

/-- IPC handler consumer:close (main.ts 900-914): same shape as
producer:close over the one-shot consumer registry. -/
def consumerClose (st : MainState) (consumerId : String)
    (closeResult : Except String Unit) :
    IPCResponse Unit × MainState × List NativeCall :=
  match st.consumers.find? consumerId with
  | none => (IPCResponse.error (consumerNotFoundMsg consumerId), st, [])
  | some _ =>
    match closeResult with
    | Except.ok _ =>
        (IPCResponse.success (),
         { st with consumers := st.consumers.erase consumerId },
         [NativeCall.consumerCloseCall consumerId])
    | Except.error e =>
        (IPCResponse.error (closeConsumerFailedMsg e), st,
         [NativeCall.consumerCloseCall consumerId])

/-- IPC handler messages:closeReader (main.ts 968-983): same shape over
the reader registry. -/
def readerClose (st : MainState) (readerId : String)
    (closeResult : Except String Unit) :
    IPCResponse Unit × MainState × List NativeCall :=
  match st.readers.find? readerId with
  | none => (IPCResponse.error (readerNotFoundMsg readerId), st, [])
  | some _ =>
    match closeResult with
    | Except.ok _ =>
        (IPCResponse.success (),
         { st with readers := st.readers.erase readerId },
         [NativeCall.readerCloseCall readerId])
    | Except.error e =>
        (IPCResponse.error (closeReaderFailedMsg e), st,
         [NativeCall.readerCloseCall readerId])

/-- Teardown effects of the before-quit handler, in issue order. -/
inductive TeardownEvt where
  | oneShotProducerClose (id : String)
  | oneShotConsumerClose (id : String)
  | streamStopSignal (id : String)
  | streamJoin (id : String)
  | streamConsumerClose (id : String)
  | clusterClose (id : String)
deriving Repr, DecidableEq

/-- Teardown phase of an event, for stating the shutdown ordering:
one-shot producers (0), then one-shot consumers (1), then streaming
consumers (2), then cluster connections (3). -/
def teardownPhase : TeardownEvt → Nat
  | TeardownEvt.oneShotProducerClose _ => 0
  | TeardownEvt.oneShotConsumerClose _ => 1
  | TeardownEvt.streamStopSignal _ => 2
  | TeardownEvt.streamJoin _ => 2
  | TeardownEvt.streamConsumerClose _ => 2
  | TeardownEvt.clusterClose _ => 3

/-- The before-quit handler (main.ts 1005-1049): awaits close on every
one-shot producer and clears the map; then every one-shot consumer;
then, for each streaming consumer, sets stopRequested, awaits the
receive loop and closes the native consumer, clearing the map; then
closes every cluster connection's messaging client and clears the map.
Every per-entry close sits in its own try/catch whose failure is only
logged, so the event sequence does not depend on close failures.  The
`readers` map (main.ts 648) is never visited by this handler. -/
def beforeQuit (st : MainState) : MainState × List TeardownEvt :=
  let pEvts := st.producers.entries.map (fun kv => TeardownEvt.oneShotProducerClose kv.1)
  let st1 := { st with producers := SMap.empty }
  let cEvts := st1.consumers.entries.map (fun kv => TeardownEvt.oneShotConsumerClose kv.1)
  let st2 := { st1 with consumers := SMap.empty }
  let sEvts := st2.streamingConsumers.entries.flatMap (fun kv =>
    [TeardownEvt.streamStopSignal kv.1, TeardownEvt.streamJoin kv.1,
     TeardownEvt.streamConsumerClose kv.1])
  let st3 := { st2 with streamingConsumers := SMap.empty }
  let clEvts := st3.connectedClusters.entries.map (fun kv => TeardownEvt.clusterClose kv.1)
  let st4 := { st3 with connectedClusters := SMap.empty }
  (st4, pEvts ++ cEvts ++ sEvts ++ clEvts)

/-- The synchronous entry segment of messages:stopConsumer
(main.ts 697-710): lookup; a missing id yields the not-found envelope
(`Except.error` carries the response); a present entry has
stopRequested set and the handler then suspends awaiting the receive
loop (`Except.ok` carries the updated map handed to the suspended
continuation, which the supervisor transition system models). -/
def stopConsumerEnter (streaming : SMap StreamingConsumerEntry) (consumerId : String) :
    Except (IPCResponse Unit) (SMap StreamingConsumerEntry) :=
  match streaming.find? consumerId with
  | none => Except.error (IPCResponse.error (consumerNotFoundMsg consumerId))
  | some entry =>
      Except.ok (streaming.set consumerId { entry with stopRequested := true })

/-- IPC handler messages:pauseConsumer (main.ts 683-695): a single
synchronous segment (no awaits) that sets paused on the entry and
returns the success envelope immediately; a missing id yields the
not-found envelope. -/
def pauseConsumerHandler (streaming : SMap StreamingConsumerEntry) (consumerId : String) :
    IPCResponse Unit × SMap StreamingConsumerEntry :=
  match streaming.find? consumerId with
  | none => (IPCResponse.error (consumerNotFoundMsg consumerId), streaming)
  | some entry =>
      (IPCResponse.success (), streaming.set consumerId { entry with paused := true })

/-- Program counter of one streaming consumer's receive loop
(startConsumerLoop, main.ts 722-762), at its suspension points:
`ready` is the top of the while loop (about to run the synchronous
check segment), `pauseSleeping` the setTimeout(100) of the paused
branch, `receiving` the awaited receive_timeout(1000), `acking m` the
awaited acknowledge of message m (issued right after the sink push),
`backingOff` the setTimeout(100) of the catch branch, and `exited`
means the loop function has returned. -/
inductive LoopPC where
  | ready
  | pauseSleeping
  | receiving
  | acking (m : PulsarMessage)
  | backingOff
  | exited
deriving Repr, DecidableEq

/-- Program counter of the messages:stopConsumer handler
(main.ts 697-720): not yet invoked; stopRequested set and awaiting the
receiveLoop promise; join done and awaiting consumer.close();
returned (after the delete on the success path). -/
inductive StopPC where
  | idle
  | joining
  | closing
  | finished
deriving Repr, DecidableEq

/-- Interleaved state of one streaming consumer: its two flags, whether
the renderer window (the delivery sink, `mainWindow`) is available,
both program counters, whether its id is still in the
streamingConsumers map, and whether the native consumer was closed. -/
structure SupState where
  paused : Bool
  stopRequested : Bool
  sinkAvailable : Bool
  loopPC : LoopPC
  stopPC : StopPC
  registered : Bool
  consumerClosed : Bool
deriving Repr, DecidableEq

/-- Observable events of the supervisor: receive issuance, the sink push
over `messages:received`, acknowledge issuance, loop termination, the
stop signal, join completion, native close issuance, registry removal,
and writes to the paused flag. -/
inductive SupEvt where
  | receiveIssued
  | sinkPush (bm : BrowsedMessage)
  | ackIssued (m : PulsarMessage)
  | loopExited
  | stopSignaled
  | joinCompleted
  | consumerCloseIssued
  | entryRemoved
  | pauseSet
  | pauseCleared
deriving Repr, DecidableEq

/-- Small-step interleaving semantics of one streaming consumer's
receive loop (startConsumerLoop, main.ts 722-762) together with the
messages:stopConsumer handler (697-720) and the paused-flag writes of
messages:pauseConsumer (683-695).  Each step is one synchronous segment
between awaits of the single-threaded event loop, so handler flag
writes interleave with the loop only at its suspension points.  The
receive result is chosen by the environment: it is the value of
consumer.receive_timeout, which yields none for a timeout or for any
receive error and never throws (pulsarClient.ts 145-153); the
acknowledge outcome is likewise environment-chosen.

Loop steps: from `ready` the segment checks stopRequested (exit), then
paused (sleep), then issues the receive.  A completed receive with a
message is pushed to the sink and the acknowledge issued in the same
segment, but only when the sink exists and stop was not requested in
the interim (main.ts 734); otherwise the segment just loops.  A failed
acknowledge lands in the catch: break when stop was requested, else
back off 100ms.  Stop steps: the handler's entry segment sets
stopRequested; the join resumes only once the loop has exited; the
close completion segment performs the delete and returns. -/
inductive SupStep : SupState → List SupEvt → SupState → Prop where
  | loopExit (s : SupState)
      (hpc : s.loopPC = LoopPC.ready) (hstop : s.stopRequested = true) :
      SupStep s [SupEvt.loopExited] { s with loopPC := LoopPC.exited }
  | pauseEnter (s : SupState)
      (hpc : s.loopPC = LoopPC.ready) (hstop : s.stopRequested = false)
      (hp : s.paused = true) :
      SupStep s [] { s with loopPC := LoopPC.pauseSleeping }
  | pauseWake (s : SupState)
      (hpc : s.loopPC = LoopPC.pauseSleeping) :
      SupStep s [] { s with loopPC := LoopPC.ready }
  | receiveIssue (s : SupState)
      (hpc : s.loopPC = LoopPC.ready) (hstop : s.stopRequested = false)
      (hp : s.paused = false) :
      SupStep s [SupEvt.receiveIssued] { s with loopPC := LoopPC.receiving }
  | receiveDeliver (s : SupState) (m : PulsarMessage)
      (hpc : s.loopPC = LoopPC.receiving) (hsink : s.sinkAvailable = true)
      (hstop : s.stopRequested = false) :
      SupStep s [SupEvt.sinkPush (toBrowsedMessage m), SupEvt.ackIssued m]
        { s with loopPC := LoopPC.acking m }
  | receiveSkip (s : SupState) (r : Option PulsarMessage)
      (hpc : s.loopPC = LoopPC.receiving)
      (hskip : r = none ∨ s.sinkAvailable = false ∨ s.stopRequested = true) :
      SupStep s [] { s with loopPC := LoopPC.ready }
  | ackOk (s : SupState) (m : PulsarMessage)
      (hpc : s.loopPC = LoopPC.acking m) :
      SupStep s [] { s with loopPC := LoopPC.ready }
  | ackFailStop (s : SupState) (m : PulsarMessage)
      (hpc : s.loopPC = LoopPC.acking m) (hstop : s.stopRequested = true) :
      SupStep s [SupEvt.loopExited] { s with loopPC := LoopPC.exited }
  | ackFailContinue (s : SupState) (m : PulsarMessage)
      (hpc : s.loopPC = LoopPC.acking m) (hstop : s.stopRequested = false) :
      SupStep s [] { s with loopPC := LoopPC.backingOff }
  | backoffWake (s : SupState)
      (hpc : s.loopPC = LoopPC.backingOff) :
      SupStep s [] { s with loopPC := LoopPC.ready }
  | stopSignal (s : SupState)
      (hpc : s.stopPC = StopPC.idle) (hreg : s.registered = true) :
      SupStep s [SupEvt.stopSignaled]
        { s with stopRequested := true, stopPC := StopPC.joining }
  | stopJoin (s : SupState)
      (hpc : s.stopPC = StopPC.joining) (hloop : s.loopPC = LoopPC.exited) :
      SupStep s [SupEvt.joinCompleted, SupEvt.consumerCloseIssued]
        { s with stopPC := StopPC.closing }
  | stopCloseDone (s : SupState)
      (hpc : s.stopPC = StopPC.closing) :
      SupStep s [SupEvt.entryRemoved]
        { s with stopPC := StopPC.finished, consumerClosed := true,
                 registered := false }
  | stopCloseFailed (s : SupState)
      (hpc : s.stopPC = StopPC.closing) :
      SupStep s [] { s with stopPC := StopPC.finished }
  | pauseRequest (s : SupState)
      (hreg : s.registered = true) :
      SupStep s [SupEvt.pauseSet] { s with paused := true }
  | pauseClear (s : SupState) :
      SupStep s [SupEvt.pauseCleared] { s with paused := false }

/-- Multi-step execution: reflexive-transitive closure of SupStep,
concatenating event traces. -/
inductive SupReach : SupState → List SupEvt → SupState → Prop where
  | refl (s : SupState) : SupReach s [] s
  | step (s₁ : SupState) (evts₁ : List SupEvt) (s₂ : SupState)
      (evts₂ : List SupEvt) (s₃ : SupState) :
      SupStep s₁ evts₁ s₂ → SupReach s₂ evts₂ s₃ →
      SupReach s₁ (evts₁ ++ evts₂) s₃

/-- Events of one undisturbed loop iteration given the receive result
(none = timeout or receive error) and the acknowledge outcome: a
received message yields receive, push, acknowledge; an empty receive
yields just the receive; the acknowledge outcome changes no event
(a failure only adds a silent backoff sleep). -/
def quietIterEvts : Option PulsarMessage × Bool → List SupEvt
  | (some m, _) => [SupEvt.receiveIssued, SupEvt.sinkPush (toBrowsedMessage m),
                    SupEvt.ackIssued m]
  | (none, _) => [SupEvt.receiveIssued]

/-- Projection of a trace to the messages pushed to the sink. -/
def pushedMsg : SupEvt → Option BrowsedMessage
  | SupEvt.sinkPush bm => some bm
  | _ => none

/-! Concrete fixtures used by witnesses and counterexamples. -/

/-- A main-process state with all registries empty. -/
def emptyMainState : MainState :=
  { connectedClusters := SMap.empty
    producers := SMap.empty
    consumers := SMap.empty
    readers := SMap.empty
    streamingConsumers := SMap.empty
    producerIdCounter := 0
    consumerIdCounter := 0 }

/-- A sample connection config. -/
def sampleConfig : ClusterConfig :=
  { clusterId := "c1", name := "local", adminUrl := "http://a", serviceUrl := "pulsar://s" }

/-- A sample live connection created at time 42. -/
def sampleConnection : ClusterConnection :=
  { config := sampleConfig, client := PulsarMessageClient.fresh, connectedAt := 42 }

/-- A state with cluster c1 connected. -/
def oneClusterState : MainState :=
  { emptyMainState with connectedClusters := ⟨[("c1", sampleConnection)]⟩ }

/-- A state holding one one-shot producer, one one-shot consumer and one
reader handle. -/
def oneOfEachState : MainState :=
  { emptyMainState with
      producers := ⟨[("producer_1", 0)]⟩
      consumers := ⟨[("consumer_1", 1)]⟩
      readers := ⟨[("reader_1", 2)]⟩ }

/-- A state with one reader still registered and cluster c1 connected. -/
def readerLeakState : MainState :=
  { emptyMainState with
      readers := ⟨[("reader_1", 0)]⟩
      connectedClusters := ⟨[("c1", sampleConnection)]⟩ }

/-- A sample received message. -/
def sampleMsg : PulsarMessage :=
  { messageId := "m1", data := "\x7b\"k\":\"v\"\x7d", properties := []
    publishTimestamp := 5, eventTimestamp := 0, redeliveryCount := 0
    partitionKey := none, topicName := "t" }

/-- A second sample received message. -/
def sampleMsg2 : PulsarMessage :=
  { messageId := "m2", data := "second", properties := []
    publishTimestamp := 6, eventTimestamp := 0, redeliveryCount := 0
    partitionKey := none, topicName := "t" }

/-- Supervisor state of an undisturbed running consumer at the top of
its loop: not paused, no stop requested, sink available, registered. -/
def runningState : SupState :=
  { paused := false, stopRequested := false, sinkAvailable := true
    loopPC := LoopPC.ready, stopPC := StopPC.idle, registered := true
    consumerClosed := false }

/-- Supervisor state with the loop exited and the stop handler awaiting
the join. -/
def joinReadyState : SupState :=
  { runningState with stopRequested := true, loopPC := LoopPC.exited
                      stopPC := StopPC.joining }

/-- Supervisor state with a receive in flight. -/
def receivingState : SupState :=
  { runningState with loopPC := LoopPC.receiving }

/-- Supervisor state in the backoff sleep after a failed acknowledge. -/
def backoffState : SupState :=
  { runningState with loopPC := LoopPC.backingOff }

/-! Claim theorems. -/

/-- C5: for every clusterId, calling connect while that clusterId is
already in the cluster registry returns the AlreadyConnected error and
mutates no state: the whole registry state is unchanged, so the
original connection (its connectedAt and capabilities) is still mapped
and no new capability objects were inserted. -/
theorem connect_on_present_id_fails_without_mutation
    (st : MainState) (config : ClusterConfig) (now : Nat)
    (h : st.connectedClusters.hasKey config.clusterId = true) :
    (clusterConnect st config now).1 =
        IPCResponse.error (alreadyConnectedMsg config.clusterId) ∧
    (clusterConnect st config now).2 = st ∧
    (clusterConnect st config now).2.connectedClusters.find? config.clusterId =
        st.connectedClusters.find? config.clusterId := by
  refine ⟨?_, ?_, ?_⟩ <;> simp [clusterConnect, h]

/-- Witness for C5: connecting c1 a second time at time 99 leaves the
one-cluster registry exactly as it was. -/
theorem connect_on_present_id_fails_without_mutation_wit :
    (clusterConnect oneClusterState sampleConfig 99).2 = oneClusterState ∧
    (clusterConnect oneClusterState sampleConfig 99).1 =
        IPCResponse.error (alreadyConnectedMsg "c1") :=
  have h := connect_on_present_id_fails_without_mutation oneClusterState sampleConfig 99
    (by decide)
  ⟨h.2.1, h.1⟩

/-- C10: for every consumerId present in the one-shot consumer registry
and every messageId string, consumer.acknowledge returns a success
envelope while issuing NO native call and changing no state — a pure
no-op on broker state — and it fails with NotFound exactly when the
consumerId is absent. -/
theorem acknowledge_is_pure_noop (st : MainState) (consumerId mid : String) :
    (st.consumers.hasKey consumerId = true →
      consumerAcknowledge st consumerId mid = (IPCResponse.success (), st, [])) ∧
    (st.consumers.hasKey consumerId = false →
      consumerAcknowledge st consumerId mid =
        (IPCResponse.error (consumerNotFoundMsg consumerId), st, [])) := by
  cases hfind : st.consumers.find? consumerId with
  | none =>
      refine ⟨fun h => ?_, fun _ => ?_⟩
      · simp [SMap.hasKey, hfind] at h
      · simp [consumerAcknowledge, hfind]
  | some v =>
      refine ⟨fun _ => ?_, fun h => ?_⟩
      · simp [consumerAcknowledge, hfind]
      · simp [SMap.hasKey, hfind] at h

/-- Witness for C10: acknowledging "mid-7" on the registered consumer_1
succeeds with an empty native-call trace and the state intact. -/
theorem acknowledge_is_pure_noop_wit :
    consumerAcknowledge oneOfEachState "consumer_1" "mid-7" =
      (IPCResponse.success (), oneOfEachState, []) :=
  (acknowledge_is_pure_noop oneOfEachState "consumer_1" "mid-7").1 (by decide)

/-- C6 counterexample: with producer_1 registered and a native close
that throws "boom", producer:close reports the failure but does NOT
remove the registry entry — the map still has producer_1 — refuting the
claim that a failed native close still removes the entry. -/
theorem producer_close_failure_keeps_entry :
    (producerClose oneOfEachState "producer_1" (Except.error "boom")).1 =
      IPCResponse.error (closeProducerFailedMsg "boom") ∧
    (producerClose oneOfEachState "producer_1" (Except.error "boom")).2.1.producers.hasKey
      "producer_1" = true := by
  refine ⟨?_, ?_⟩ <;> decide

/-- C6 amended: for each resource kind (producer, one-shot consumer,
reader) and every id present in its registry, close(id) issues the
native close and removes the registry entry only when that close
resolves; when the native close fails, the failure is reported to the
caller as a non-fatal error envelope and the entry REMAINS in the
registry (it is not removed). -/
theorem close_failure_reports_and_keeps_entry (st : MainState) (id e : String) :
    (st.producers.hasKey id = true →
      producerClose st id (Except.ok ()) =
        (IPCResponse.success (), { st with producers := st.producers.erase id },
         [NativeCall.producerCloseCall id]) ∧
      producerClose st id (Except.error e) =
        (IPCResponse.error (closeProducerFailedMsg e), st,
         [NativeCall.producerCloseCall id])) ∧
    (st.consumers.hasKey id = true →
      consumerClose st id (Except.ok ()) =
        (IPCResponse.success (), { st with consumers := st.consumers.erase id },
         [NativeCall.consumerCloseCall id]) ∧
      consumerClose st id (Except.error e) =
        (IPCResponse.error (closeConsumerFailedMsg e), st,
         [NativeCall.consumerCloseCall id])) ∧
    (st.readers.hasKey id = true →
      readerClose st id (Except.ok ()) =
        (IPCResponse.success (), { st with readers := st.readers.erase id },
         [NativeCall.readerCloseCall id]) ∧
      readerClose st id (Except.error e) =
        (IPCResponse.error (closeReaderFailedMsg e), st,
         [NativeCall.readerCloseCall id])) := by
  refine ⟨fun h => ?_, fun h => ?_, fun h => ?_⟩
  · cases hfind : st.producers.find? id with
    | none => simp [SMap.hasKey, hfind] at h
    | some v => exact ⟨by simp [producerClose, hfind], by simp [producerClose, hfind]⟩
  · cases hfind : st.consumers.find? id with
    | none => simp [SMap.hasKey, hfind] at h
    | some v => exact ⟨by simp [consumerClose, hfind], by simp [consumerClose, hfind]⟩
  · cases hfind : st.readers.find? id with
    | none => simp [SMap.hasKey, hfind] at h
    | some v => exact ⟨by simp [readerClose, hfind], by simp [readerClose, hfind]⟩

/-- Witness for the C6 amendment: closing the registered reader_1 with a
failing native close returns the error envelope and keeps the entry. -/
theorem close_failure_reports_and_keeps_entry_wit :
    readerClose oneOfEachState "reader_1" (Except.error "gone") =
      (IPCResponse.error (closeReaderFailedMsg "gone"), oneOfEachState,
       [NativeCall.readerCloseCall "reader_1"]) :=
  ((close_failure_reports_and_keeps_entry oneOfEachState "reader_1" "gone").2.2
    (by decide)).2

/-- A successful lookup is a real entry of the list. -/
theorem SMap.mem_of_findEntry_some {β : Type} {k : String} {v : β} :
    ∀ {l : List (String × β)}, SMap.findEntry k l = some v → (k, v) ∈ l
  | [], h => by simp [SMap.findEntry] at h
  | (k₁, v₁) :: rest, h => by
      by_cases hk : k₁ = k
      · subst hk
        simp [SMap.findEntry] at h
        subst h
        exact List.mem_cons_self _ _
      · simp only [SMap.findEntry, if_neg hk] at h
        exact List.mem_cons_of_mem _ (SMap.mem_of_findEntry_some h)

/-- Helper: appending a block whose phases are all at least those of the
first block preserves phase-monotonicity. -/
theorem pairwise_le_append {α : Type} (f : α → Nat) {l₁ l₂ : List α} {n : Nat}
    (h₁ : ∀ a ∈ l₁, f a ≤ n) (h₂ : ∀ a ∈ l₂, n ≤ f a)
    (p₁ : List.Pairwise (fun a b => f a ≤ f b) l₁)
    (p₂ : List.Pairwise (fun a b => f a ≤ f b) l₂) :
    List.Pairwise (fun a b => f a ≤ f b) (l₁ ++ l₂) := by
  rw [List.pairwise_append]
  exact ⟨p₁, p₂, fun a ha b hb => le_trans (h₁ a ha) (h₂ b hb)⟩

/-- Helper: a block of constant phase is phase-monotone. -/
theorem pairwise_le_of_const {α : Type} (f : α → Nat) {l : List α} {n : Nat}
    (h : ∀ a ∈ l, f a = n) : List.Pairwise (fun a b => f a ≤ f b) l := by
  induction l with
  | nil => exact List.Pairwise.nil
  | cons x xs ih =>
      refine List.Pairwise.cons (fun b hb => ?_)
        (ih (fun a ha => h a (List.mem_cons_of_mem _ ha)))
      rw [h x (List.mem_cons_self _ _), h b (List.mem_cons_of_mem _ hb)]

/-- C7 counterexample: with reader_1 registered and cluster c1
connected, the before-quit teardown emits the cluster close while the
reader registry — which teardown never visits — still holds reader_1,
so shutdown DOES invoke a cluster close while a reader handle is still
registered as open, refuting the claim's consequent. -/
theorem teardown_closes_cluster_while_reader_registered :
    TeardownEvt.clusterClose "c1" ∈ (beforeQuit readerLeakState).2 ∧
    (beforeQuit readerLeakState).1.readers.hasKey "reader_1" = true ∧
    (beforeQuit readerLeakState).1.readers = readerLeakState.readers := by
  refine ⟨?_, ?_, ?_⟩ <;> decide

/-- C7 amended: process-wide teardown closes every one-shot producer,
then every one-shot consumer, then signals stopRequested, joins and
closes every streaming consumer, then closes every cluster connection,
in that phase order (the emitted event sequence is monotone in
teardownPhase) and clears those four registries; consequently shutdown
never invokes a cluster close while a PRODUCER or CONSUMER (one-shot or
streaming) handle is still registered.  The READER registry, however,
is never visited by teardown — it is returned unchanged — so a cluster
close can occur while reader handles are still registered as open. -/
theorem teardown_order_and_reader_leak (st : MainState) :
    List.Pairwise (fun a b => teardownPhase a ≤ teardownPhase b) (beforeQuit st).2 ∧
    (∀ k, st.producers.hasKey k = true →
      TeardownEvt.oneShotProducerClose k ∈ (beforeQuit st).2) ∧
    (∀ k, st.consumers.hasKey k = true →
      TeardownEvt.oneShotConsumerClose k ∈ (beforeQuit st).2) ∧
    (∀ k, st.streamingConsumers.hasKey k = true →
      TeardownEvt.streamStopSignal k ∈ (beforeQuit st).2 ∧
      TeardownEvt.streamJoin k ∈ (beforeQuit st).2 ∧
      TeardownEvt.streamConsumerClose k ∈ (beforeQuit st).2) ∧
    (∀ k, st.connectedClusters.hasKey k = true →
      TeardownEvt.clusterClose k ∈ (beforeQuit st).2) ∧
    (beforeQuit st).1.producers = SMap.empty ∧
    (beforeQuit st).1.consumers = SMap.empty ∧
    (beforeQuit st).1.streamingConsumers = SMap.empty ∧
    (beforeQuit st).1.connectedClusters = SMap.empty ∧
    (beforeQuit st).1.readers = st.readers := by
  have hp : ∀ a ∈ st.producers.entries.map
      (fun kv => TeardownEvt.oneShotProducerClose kv.1), teardownPhase a = 0 := by
    intro a ha
    obtain ⟨kv, _, rfl⟩ := List.mem_map.1 ha
    rfl
  have hc : ∀ a ∈ st.consumers.entries.map
      (fun kv => TeardownEvt.oneShotConsumerClose kv.1), teardownPhase a = 1 := by
    intro a ha
    obtain ⟨kv, _, rfl⟩ := List.mem_map.1 ha
    rfl
  have hs : ∀ a ∈ st.streamingConsumers.entries.flatMap
      (fun kv => [TeardownEvt.streamStopSignal kv.1, TeardownEvt.streamJoin kv.1,
        TeardownEvt.streamConsumerClose kv.1]), teardownPhase a = 2 := by
    intro a ha
    obtain ⟨kv, _, hmem⟩ := List.mem_flatMap.1 ha
    simp only [List.mem_cons, List.mem_singleton] at hmem
    rcases hmem with rfl | rfl | rfl | h
    · rfl
    · rfl
    · rfl
    · simp at h
  have hcl : ∀ a ∈ st.connectedClusters.entries.map
      (fun kv => TeardownEvt.clusterClose kv.1), teardownPhase a = 3 := by
    intro a ha
    obtain ⟨kv, _, rfl⟩ := List.mem_map.1 ha
    rfl
  refine ⟨?_, ?_, ?_, ?_, ?_, ?_, ?_, ?_, ?_, ?_⟩
  · show List.Pairwise _ _
    simp only [beforeQuit, List.append_assoc]
    refine pairwise_le_append teardownPhase
      (n := 0) (fun a ha => le_of_eq (hp a ha)) (fun a _ => Nat.zero_le _)
      (pairwise_le_of_const teardownPhase hp) ?_
    refine pairwise_le_append teardownPhase
      (n := 1) (fun a ha => le_of_eq (hc a ha)) ?_
      (pairwise_le_of_const teardownPhase hc) ?_
    · intro a ha
      rcases List.mem_append.1 ha with h | h
      · rw [hs a h]; exact Nat.le_of_lt (by decide)
      · rw [hcl a h]; exact Nat.le_of_lt (by decide)
    · refine pairwise_le_append teardownPhase
        (n := 2) (fun a ha => le_of_eq (hs a ha)) (fun a ha => by rw [hcl a ha]; decide)
        (pairwise_le_of_const teardownPhase hs) (pairwise_le_of_const teardownPhase hcl)
  · intro k hk
    obtain ⟨v, hv⟩ := Option.isSome_iff_exists.1 hk
    have hmem := SMap.mem_of_findEntry_some hv
    simp only [beforeQuit, List.mem_append, List.mem_map]
    exact Or.inl (Or.inl (Or.inl ⟨(k, v), hmem, rfl⟩))
  · intro k hk
    obtain ⟨v, hv⟩ := Option.isSome_iff_exists.1 hk
    have hmem := SMap.mem_of_findEntry_some hv
    simp only [beforeQuit, List.mem_append, List.mem_map]
    exact Or.inl (Or.inl (Or.inr ⟨(k, v), hmem, rfl⟩))
  · intro k hk
    obtain ⟨v, hv⟩ := Option.isSome_iff_exists.1 hk
    have hmem := SMap.mem_of_findEntry_some hv
    refine ⟨?_, ?_, ?_⟩ <;>
      · simp only [beforeQuit, List.mem_append, List.mem_flatMap]
        exact Or.inl (Or.inr ⟨(k, v), hmem, by simp⟩)
  · intro k hk
    obtain ⟨v, hv⟩ := Option.isSome_iff_exists.1 hk
    have hmem := SMap.mem_of_findEntry_some hv
    simp only [beforeQuit, List.mem_append, List.mem_map]
    exact Or.inr ⟨(k, v), hmem, rfl⟩
  · simp [beforeQuit]
  · simp [beforeQuit]
  · simp [beforeQuit]
  · simp [beforeQuit]
  · simp [beforeQuit]

/-- Witness for the C7 amendment at the reader-leak fixture: the cluster
close for c1 is in the teardown trace while the reader registry comes
back unchanged. -/
theorem teardown_order_and_reader_leak_wit :
    TeardownEvt.clusterClose "c1" ∈ (beforeQuit oneClusterState).2 ∧
    (beforeQuit oneClusterState).1.readers = oneClusterState.readers :=
  have h := teardown_order_and_reader_leak oneClusterState
  ⟨h.2.2.2.2.1 "c1" (by decide), h.2.2.2.2.2.2.2.2.2⟩

/-- Helper: erasing a key makes its lookup miss. -/
theorem SMap.find?_erase_self {β : Type} (m : SMap β) (k : String) :
    (m.erase k).find? k = none := by
  show SMap.findEntry k (m.entries.filter fun kv => kv.1 ≠ k) = none
  induction m.entries with
  | nil => rfl
  | cons kv rest ih =>
      obtain ⟨k₁, v₁⟩ := kv
      by_cases hk : k₁ = k
      · simpa [hk] using ih
      · simpa [List.filter, hk, SMap.findEntry] using ih

/-- Helper: the two disconnect error texts always differ (their literal
heads differ), so the NotConnected envelope is never produced by the
close-failure catch. -/
theorem notConnectedMsg_ne_disconnectFailedMsg (cid e : String) :
    notConnectedMsg cid ≠ disconnectFailedMsg e := by
  intro h
  have hd : (notConnectedMsg cid).data = (disconnectFailedMsg e).data :=
    congrArg String.data h
  simp only [notConnectedMsg, disconnectFailedMsg, String.data_append] at hd
  have hh := congrArg List.head? hd
  simp at hh

/-- C8: disconnect(clusterId) fails with the NotConnected error exactly
when the id is absent from the cluster registry; on success it invokes
the messaging client's aggregate close BEFORE removing the registry
entry — the final state is the replay of the event trace, and the state
observed while the aggregate close is in flight still maps the id to
the original connection, which is gone only after the removal event.
The aggregate close itself closes every derived producer, consumer and
reader wrapper, in that phase order, before the native client close. -/
theorem disconnect_closes_before_removal
    (st : MainState) (clusterId : String) (closeResult : Except String Unit) :
    ((clusterDisconnect st clusterId closeResult).1 =
        IPCResponse.error (notConnectedMsg clusterId) ↔
      st.connectedClusters.find? clusterId = none) ∧
    (∀ conn, st.connectedClusters.find? clusterId = some conn →
      closeResult = Except.ok () →
      (clusterDisconnect st clusterId closeResult).1 = IPCResponse.success () ∧
      (clusterDisconnect st clusterId closeResult).2.2 =
        [DisconnectEvt.aggregateClose clusterId, DisconnectEvt.removeEntry clusterId] ∧
      (clusterDisconnect st clusterId closeResult).2.1 =
        applyDisconnectEvt (applyDisconnectEvt st (DisconnectEvt.aggregateClose clusterId))
          (DisconnectEvt.removeEntry clusterId) ∧
      (applyDisconnectEvt st
          (DisconnectEvt.aggregateClose clusterId)).connectedClusters.find? clusterId =
        some conn ∧
      (clusterDisconnect st clusterId closeResult).2.1.connectedClusters.find? clusterId =
        none) ∧
    (∀ c : PulsarMessageClient,
      List.Pairwise (fun a b => clientPhase a ≤ clientPhase b) c.closeAll.2 ∧
      (∀ t ∈ c.producers, ClientEvt.wrappedProducerClose t ∈ c.closeAll.2) ∧
      (∀ t ∈ c.consumers, ClientEvt.wrappedConsumerClose t ∈ c.closeAll.2) ∧
      (∀ t ∈ c.readers, ClientEvt.wrappedReaderClose t ∈ c.closeAll.2) ∧
      (c.clientCreated = true → ClientEvt.nativeClientClose ∈ c.closeAll.2)) := by
  refine ⟨?_, ?_, ?_⟩
  · cases hfind : st.connectedClusters.find? clusterId with
    | none => simp [clusterDisconnect, hfind]
    | some conn =>
        simp only [clusterDisconnect, hfind]
        cases closeResult with
        | ok u => simp
        | error e =>
            simp only [iff_iff_implies_and_implies]
            constructor
            · intro h
              exact absurd (congrArg (fun r => r) h) (by
                intro hx
                have : disconnectFailedMsg e = notConnectedMsg clusterId :=
                  by injection hx
                exact notConnectedMsg_ne_disconnectFailedMsg clusterId e this.symm)
            · intro h
              simp at h
  · intro conn hfind hok
    subst hok
    refine ⟨?_, ?_, ?_, ?_, ?_⟩ <;>
      simp [clusterDisconnect, hfind, applyDisconnectEvt, SMap.find?_erase_self]
  · intro c
    have hp : ∀ a ∈ c.producers.map ClientEvt.wrappedProducerClose, clientPhase a = 0 := by
      intro a ha
      obtain ⟨t, _, rfl⟩ := List.mem_map.1 ha
      rfl
    have hc : ∀ a ∈ c.consumers.map ClientEvt.wrappedConsumerClose, clientPhase a = 1 := by
      intro a ha
      obtain ⟨t, _, rfl⟩ := List.mem_map.1 ha
      rfl
    have hr : ∀ a ∈ c.readers.map ClientEvt.wrappedReaderClose, clientPhase a = 2 := by
      intro a ha
      obtain ⟨t, _, rfl⟩ := List.mem_map.1 ha
      rfl
    have hn : ∀ a ∈ (if c.clientCreated then [ClientEvt.nativeClientClose] else []),
        clientPhase a = 3 := by
      intro a ha
      cases hcc : c.clientCreated <;> rw [hcc] at ha <;> simp at ha
      rw [ha]
      rfl
    refine ⟨?_, ?_, ?_, ?_, ?_⟩
    · show List.Pairwise _ _
      simp only [PulsarMessageClient.closeAll, List.append_assoc]
      refine pairwise_le_append clientPhase
        (n := 0) (fun a ha => le_of_eq (hp a ha)) (fun a _ => Nat.zero_le _)
        (pairwise_le_of_const clientPhase hp) ?_
      refine pairwise_le_append clientPhase
        (n := 1) (fun a ha => le_of_eq (hc a ha)) ?_
        (pairwise_le_of_const clientPhase hc) ?_
      · intro a ha
        rcases List.mem_append.1 ha with h | h
        · rw [hr a h]; decide
        · rw [hn a h]; decide
      · exact pairwise_le_append clientPhase
          (n := 2) (fun a ha => le_of_eq (hr a ha)) (fun a ha => by rw [hn a ha]; decide)
          (pairwise_le_of_const clientPhase hr) (pairwise_le_of_const clientPhase hn)
    · intro t ht
      simp only [PulsarMessageClient.closeAll, List.mem_append, List.mem_map]
      exact Or.inl (Or.inl (Or.inl ⟨t, ht, rfl⟩))
    · intro t ht
      simp only [PulsarMessageClient.closeAll, List.mem_append, List.mem_map]
      exact Or.inl (Or.inl (Or.inr ⟨t, ht, rfl⟩))
    · intro t ht
      simp only [PulsarMessageClient.closeAll, List.mem_append, List.mem_map]
      exact Or.inl (Or.inr ⟨t, ht, rfl⟩)
    · intro hcc
      simp only [PulsarMessageClient.closeAll, List.mem_append, hcc]
      simp

/-- Witness for C8: disconnecting the connected c1 with a successful
aggregate close returns success, emits close-then-remove, and the
lookup replayed just after the aggregate close still finds c1. -/
theorem disconnect_closes_before_removal_wit :
    (clusterDisconnect oneClusterState "c1" (Except.ok ())).1 = IPCResponse.success () ∧
    (applyDisconnectEvt oneClusterState
        (DisconnectEvt.aggregateClose "c1")).connectedClusters.find? "c1" =
      some sampleConnection :=
  have h := (disconnect_closes_before_removal oneClusterState "c1" (Except.ok ())).2.1
    sampleConnection (by decide) rfl
  ⟨h.1, h.2.2.2.1⟩

/-- C1: stopConsumer sets stopRequested, and the native consumer close
is only issued once the receive loop has itself terminated — the join
step of the stop handler is enabled only when the loop has exited, and
exit is absorbing, so the close never happens while the loop (hence a
receive) is in flight; registry removal happens only after the close;
and a stopConsumer that runs after the first one has completed removal
misses the lookup and returns the NotFound envelope. -/
theorem stop_joins_loop_before_close_and_is_not_found_after :
    (∀ s evts s', SupStep s evts s' → SupEvt.stopSignaled ∈ evts →
      s'.stopRequested = true ∧ s.registered = true) ∧
    (∀ s evts s', SupStep s evts s' → SupEvt.consumerCloseIssued ∈ evts →
      s.loopPC = LoopPC.exited ∧ s'.loopPC = LoopPC.exited) ∧
    (∀ s evts s', SupStep s evts s' → s.loopPC = LoopPC.exited →
      s'.loopPC = LoopPC.exited) ∧
    (∀ s evts s', SupStep s evts s' → SupEvt.entryRemoved ∈ evts →
      s.stopPC = StopPC.closing) ∧
    (∀ streaming : SMap StreamingConsumerEntry, ∀ consumerId,
      streaming.find? consumerId = none →
      stopConsumerEnter streaming consumerId =
        Except.error (IPCResponse.error (consumerNotFoundMsg consumerId))) := by
  refine ⟨?_, ?_, ?_, ?_, ?_⟩
  · intro s evts s' hstep hmem
    cases hstep <;> simp_all
  · intro s evts s' hstep hmem
    cases hstep <;> simp_all
  · intro s evts s' hstep hloop
    cases hstep <;> simp_all
  · intro s evts s' hstep hmem
    cases hstep <;> simp_all
  · intro streaming consumerId hfind
    simp [stopConsumerEnter, SMap.find?] at hfind ⊢
    simp [hfind]

/-- Witness for C1: the join step from the concrete joined state issues
the close with the loop already exited, and stopConsumer on an empty
registry returns NotFound for streaming_consumer_1. -/
theorem stop_joins_loop_before_close_and_is_not_found_after_wit :
    joinReadyState.loopPC = LoopPC.exited ∧
    stopConsumerEnter SMap.empty "streaming_consumer_1" =
      Except.error (IPCResponse.error (consumerNotFoundMsg "streaming_consumer_1")) :=
  have hstep : SupStep joinReadyState
      [SupEvt.joinCompleted, SupEvt.consumerCloseIssued]
      { joinReadyState with stopPC := StopPC.closing } :=
    SupStep.stopJoin joinReadyState rfl rfl
  ⟨(stop_joins_loop_before_close_and_is_not_found_after.2.1 _ _ _ hstep (by simp)).1,
   stop_joins_loop_before_close_and_is_not_found_after.2.2.2.2 SMap.empty
     "streaming_consumer_1" rfl⟩

/-- C9: receive_timeout (and readNext_timeout) returns null whenever
the underlying native call throws, whatever the error — all errors
collapse to the same null as a quiet timeout — and in the streaming
loop a null receive takes a silent transition back to the loop top:
no event at all (no sink push, no log) and no backoff state, just
another iteration. -/
theorem receive_errors_indistinguishable_from_timeout :
    (∀ e, PulsarConsumer.receive_timeout (Except.error e) = none) ∧
    (∀ e, PulsarReader.readNext_timeout (Except.error e) = none) ∧
    (∀ e₁ e₂, PulsarConsumer.receive_timeout (Except.error e₁) =
      PulsarConsumer.receive_timeout (Except.error e₂)) ∧
    (∀ s : SupState, ∀ r : Option PulsarMessage, r = none →
      s.loopPC = LoopPC.receiving →
      SupStep s [] { s with loopPC := LoopPC.ready }) := by
  refine ⟨fun e => rfl, fun e => rfl, fun e₁ e₂ => rfl, ?_⟩
  intro s r hr hpc
  exact SupStep.receiveSkip s r hpc (Or.inl hr)

/-- Witness for C9: a receive that fails with "broker down" yields null,
and from the concrete receiving state the loop silently returns to the
loop top with no event. -/
theorem receive_errors_indistinguishable_from_timeout_wit :
    PulsarConsumer.receive_timeout (Except.error "broker down") = none ∧
    SupStep receivingState [] { receivingState with loopPC := LoopPC.ready } :=
  ⟨receive_errors_indistinguishable_from_timeout.1 "broker down",
   receive_errors_indistinguishable_from_timeout.2.2.2 receivingState
     (PulsarConsumer.receive_timeout (Except.error "broker down"))
     (receive_errors_indistinguishable_from_timeout.1 "broker down") rfl⟩

/-- Helper: prepend one step to an execution, with the concatenated
trace supplied as an equation (so list computation stays definitional). -/
theorem SupReach.stepHead (s₁ : SupState) (e₁ : List SupEvt) (s₂ : SupState)
    (e₂ e : List SupEvt) (s₃ : SupState)
    (h : SupStep s₁ e₁ s₂) (hr : SupReach s₂ e₂ s₃) (he : e = e₁ ++ e₂) :
    SupReach s₁ e s₃ := by
  subst he
  exact SupReach.step s₁ e₁ s₂ e₂ s₃ h hr

/-- C2: in every loop step that delivers, the sink push and the
acknowledge are issued in that order inside the same synchronous
segment, and only when stopRequested has not been set in the interim
and the sink is available; a failed acknowledge while no stop was
requested never moves the loop to its exit — it lands in the backoff
sleep — and from the backoff state the loop goes on to deliver any
subsequent message. -/
theorem push_then_ack_and_ack_failure_is_nonfatal :
    (∀ s evts s' bm, SupStep s evts s' → SupEvt.sinkPush bm ∈ evts →
      ∃ m, bm = toBrowsedMessage m ∧
        evts = [SupEvt.sinkPush (toBrowsedMessage m), SupEvt.ackIssued m] ∧
        s.stopRequested = false ∧ s.sinkAvailable = true) ∧
    (∀ s evts s' m, SupStep s evts s' → s.loopPC = LoopPC.acking m →
      s.stopRequested = false → s'.loopPC ≠ LoopPC.exited) ∧
    (∀ s : SupState, ∀ m₂, s.loopPC = LoopPC.backingOff → s.stopRequested = false →
      s.paused = false → s.sinkAvailable = true →
      SupReach s
        [SupEvt.receiveIssued, SupEvt.sinkPush (toBrowsedMessage m₂), SupEvt.ackIssued m₂]
        { s with loopPC := LoopPC.acking m₂ }) := by
  refine ⟨?_, ?_, ?_⟩
  · intro s evts s' bm hstep hmem
    cases hstep with
    | receiveDeliver m hpc hsink hstop =>
        simp at hmem
        subst hmem
        exact ⟨m, rfl, rfl, hstop, hsink⟩
    | _ => simp_all
  · intro s evts s' m hstep hack hstop
    cases hstep <;> simp_all
  · intro s m₂ hb hstop hp hsink
    have h1 : SupStep s [] { s with loopPC := LoopPC.ready } :=
      SupStep.backoffWake s hb
    have h2 : SupStep { s with loopPC := LoopPC.ready } [SupEvt.receiveIssued]
        { s with loopPC := LoopPC.receiving } :=
      SupStep.receiveIssue _ rfl hstop hp
    have h3 : SupStep { s with loopPC := LoopPC.receiving }
        [SupEvt.sinkPush (toBrowsedMessage m₂), SupEvt.ackIssued m₂]
        { s with loopPC := LoopPC.acking m₂ } :=
      SupStep.receiveDeliver _ m₂ rfl hsink hstop
    exact SupReach.step _ _ _ _ _ h1 (SupReach.step _ _ _ _ _ h2
      (SupReach.step _ _ _ _ _ h3 (SupReach.refl _)))

/-- Witness for C2: from the concrete backoff state reached after a
failed acknowledge, the loop receives, pushes and acknowledges the
next message m2. -/
theorem push_then_ack_and_ack_failure_is_nonfatal_wit :
    SupReach backoffState
      [SupEvt.receiveIssued, SupEvt.sinkPush (toBrowsedMessage sampleMsg2),
       SupEvt.ackIssued sampleMsg2]
      { backoffState with loopPC := LoopPC.acking sampleMsg2 } :=
  push_then_ack_and_ack_failure_is_nonfatal.2.2 backoffState sampleMsg2 rfl rfl rfl rfl

/-- C3: pauseConsumer is one synchronous segment that sets paused on
the entry and returns success immediately; no step of the loop issues
a receive while paused; yet a receive already in flight when pause
takes effect can still complete and be delivered to the sink; and once
the paused flag is cleared again, delivery resumes with no
startConsumer involved — the realized trace below pauses during an
in-flight receive, still delivers m₁, then resumes and delivers m₂. -/
theorem pause_blocks_only_new_receives :
    (∀ streaming : SMap StreamingConsumerEntry, ∀ consumerId entry,
      streaming.find? consumerId = some entry →
      pauseConsumerHandler streaming consumerId =
        (IPCResponse.success (),
         streaming.set consumerId { entry with paused := true })) ∧
    (∀ s evts s', SupStep s evts s' → SupEvt.receiveIssued ∈ evts →
      s.paused = false) ∧
    (∀ s : SupState, ∀ m₁ m₂, s.loopPC = LoopPC.receiving → s.paused = false →
      s.stopRequested = false → s.sinkAvailable = true → s.registered = true →
      SupReach s
        [SupEvt.pauseSet, SupEvt.sinkPush (toBrowsedMessage m₁), SupEvt.ackIssued m₁,
         SupEvt.pauseCleared, SupEvt.receiveIssued,
         SupEvt.sinkPush (toBrowsedMessage m₂), SupEvt.ackIssued m₂]
        { s with paused := false, loopPC := LoopPC.acking m₂ }) := by
  refine ⟨?_, ?_, ?_⟩
  · intro streaming consumerId entry hfind
    simp [pauseConsumerHandler, hfind]
  · intro s evts s' hstep hmem
    cases hstep <;> simp_all
  · intro s m₁ m₂ hpc hp hstop hsink hreg
    have h1 : SupStep s [SupEvt.pauseSet] { s with paused := true } :=
      SupStep.pauseRequest s hreg
    have h2 : SupStep { s with paused := true }
        [SupEvt.sinkPush (toBrowsedMessage m₁), SupEvt.ackIssued m₁]
        { s with paused := true, loopPC := LoopPC.acking m₁ } :=
      SupStep.receiveDeliver _ m₁ hpc hsink hstop
    have h3 : SupStep { s with paused := true, loopPC := LoopPC.acking m₁ } []
        { s with paused := true, loopPC := LoopPC.ready } :=
      SupStep.ackOk _ m₁ rfl
    have h4 : SupStep { s with paused := true, loopPC := LoopPC.ready }
        [SupEvt.pauseCleared] { s with paused := false, loopPC := LoopPC.ready } :=
      SupStep.pauseClear _
    have h5 : SupStep { s with paused := false, loopPC := LoopPC.ready }
        [SupEvt.receiveIssued] { s with paused := false, loopPC := LoopPC.receiving } :=
      SupStep.receiveIssue _ rfl hstop rfl
    have h6 : SupStep { s with paused := false, loopPC := LoopPC.receiving }
        [SupEvt.sinkPush (toBrowsedMessage m₂), SupEvt.ackIssued m₂]
        { s with paused := false, loopPC := LoopPC.acking m₂ } :=
      SupStep.receiveDeliver _ m₂ rfl hsink hstop
    exact SupReach.step _ _ _ _ _ h1 (SupReach.step _ _ _ _ _ h2
      (SupReach.step _ _ _ _ _ h3 (SupReach.step _ _ _ _ _ h4
        (SupReach.step _ _ _ _ _ h5 (SupReach.step _ _ _ _ _ h6 (SupReach.refl _))))))

/-- Witness for C3: pausing "streaming_consumer_1" in a one-entry map
flips only its paused flag and succeeds, and the concrete
pause-during-receive trace delivers m1 then, after the flag clears,
m2. -/
theorem pause_blocks_only_new_receives_wit :
    pauseConsumerHandler
        ⟨[("streaming_consumer_1",
           { consumerId := "streaming_consumer_1", paused := false,
             stopRequested := false })]⟩ "streaming_consumer_1" =
      (IPCResponse.success (),
       ⟨[("streaming_consumer_1",
          { consumerId := "streaming_consumer_1", paused := true,
            stopRequested := false })]⟩) ∧
    SupReach receivingState
      [SupEvt.pauseSet, SupEvt.sinkPush (toBrowsedMessage sampleMsg),
       SupEvt.ackIssued sampleMsg, SupEvt.pauseCleared, SupEvt.receiveIssued,
       SupEvt.sinkPush (toBrowsedMessage sampleMsg2), SupEvt.ackIssued sampleMsg2]
      { receivingState with paused := false, loopPC := LoopPC.acking sampleMsg2 } :=
  ⟨by
      have h := pause_blocks_only_new_receives.1
        ⟨[("streaming_consumer_1",
           { consumerId := "streaming_consumer_1", paused := false,
             stopRequested := false })]⟩ "streaming_consumer_1"
        { consumerId := "streaming_consumer_1", paused := false, stopRequested := false }
        (by decide)
      simpa [SMap.set, SMap.setEntry] using h,
   pause_blocks_only_new_receives.2.2 receivingState sampleMsg sampleMsg2
     rfl rfl rfl rfl rfl⟩

/-- C4: the supervisor neither buffers nor reorders — a sink push
happens only in the very step that completes its receive (moving the
loop to the acknowledge of that same message), a new receive is only
issued from the loop top (so each delivered message is pushed before
the next receive is issued), and an undisturbed run over any receive
script realizes exactly the interleaved trace receive, push, ack,
receive, ... whose pushed messages are the script's received messages,
converted, in the same order. -/
theorem sink_gets_messages_in_receive_order :
    (∀ s evts s' bm, SupStep s evts s' → SupEvt.sinkPush bm ∈ evts →
      s.loopPC = LoopPC.receiving ∧
      ∃ m, bm = toBrowsedMessage m ∧ s' = { s with loopPC := LoopPC.acking m }) ∧
    (∀ s evts s', SupStep s evts s' → SupEvt.receiveIssued ∈ evts →
      s.loopPC = LoopPC.ready ∧ s'.loopPC = LoopPC.receiving) ∧
    (∀ script : List (Option PulsarMessage × Bool),
      SupReach runningState (script.flatMap quietIterEvts) runningState) ∧
    (∀ script : List (Option PulsarMessage × Bool),
      (script.flatMap quietIterEvts).filterMap pushedMsg =
        (script.filterMap (fun it => it.1)).map toBrowsedMessage) := by
  refine ⟨?_, ?_, ?_, ?_⟩
  · intro s evts s' bm hstep hmem
    cases hstep with
    | receiveDeliver m hpc hsink hstop =>
        simp at hmem
        subst hmem
        exact ⟨hpc, m, rfl, rfl⟩
    | _ => simp_all
  · intro s evts s' hstep hmem
    cases hstep <;> simp_all
  · intro script
    induction script with
    | nil => exact SupReach.refl _
    | cons it rest ih =>
        obtain ⟨r, ackResolves⟩ := it
        have h1 : SupStep runningState [SupEvt.receiveIssued]
            { runningState with loopPC := LoopPC.receiving } :=
          SupStep.receiveIssue runningState rfl rfl rfl
        cases r with
        | none =>
            have h2 : SupStep { runningState with loopPC := LoopPC.receiving } []
                runningState :=
              SupStep.receiveSkip _ none rfl (Or.inl rfl)
            exact SupReach.stepHead _ _ _ _ _ _ h1
              (SupReach.stepHead _ _ _ _ _ _ h2 ih rfl) rfl
        | some m =>
            have h2 : SupStep { runningState with loopPC := LoopPC.receiving }
                [SupEvt.sinkPush (toBrowsedMessage m), SupEvt.ackIssued m]
                { runningState with loopPC := LoopPC.acking m } :=
              SupStep.receiveDeliver _ m rfl rfl rfl
            cases ackResolves with
            | true =>
                have h3 : SupStep { runningState with loopPC := LoopPC.acking m } []
                    runningState :=
                  SupStep.ackOk _ m rfl
                exact SupReach.stepHead _ _ _ _ _ _ h1
                  (SupReach.stepHead _ _ _ _ _ _ h2
                    (SupReach.stepHead _ _ _ _ _ _ h3 ih rfl) rfl) rfl
            | false =>
                have h3 : SupStep { runningState with loopPC := LoopPC.acking m } []
                    { runningState with loopPC := LoopPC.backingOff } :=
                  SupStep.ackFailContinue _ m rfl rfl
                have h4 : SupStep { runningState with loopPC := LoopPC.backingOff } []
                    runningState :=
                  SupStep.backoffWake _ rfl
                exact SupReach.stepHead _ _ _ _ _ _ h1
                  (SupReach.stepHead _ _ _ _ _ _ h2
                    (SupReach.stepHead _ _ _ _ _ _ h3
                      (SupReach.stepHead _ _ _ _ _ _ h4 ih rfl) rfl) rfl) rfl
  · intro script
    induction script with
    | nil => rfl
    | cons it rest ih =>
        obtain ⟨r, ackResolves⟩ := it
        cases r <;> simp [quietIterEvts, pushedMsg, ih]

/-- Witness for C4: an undisturbed run over the script m1, timeout, m2
(with the acknowledge of m2 failing) is realized by the machine and
pushes exactly m1 then m2, converted, in order; and the concrete
receive-issuing step departs from the loop top. -/
theorem sink_gets_messages_in_receive_order_wit :
    SupReach runningState
      (([(some sampleMsg, true), (none, true),
         (some sampleMsg2, false)].flatMap quietIterEvts)) runningState ∧
    ([(some sampleMsg, true), (none, true),
      (some sampleMsg2, false)].flatMap quietIterEvts).filterMap pushedMsg =
      [toBrowsedMessage sampleMsg, toBrowsedMessage sampleMsg2] ∧
    runningState.loopPC = LoopPC.ready :=
  ⟨sink_gets_messages_in_receive_order.2.2.1
      [(some sampleMsg, true), (none, true), (some sampleMsg2, false)],
   by
     have h := sink_gets_messages_in_receive_order.2.2.2
       [(some sampleMsg, true), (none, true), (some sampleMsg2, false)]
     simpa using h,
   (sink_gets_messages_in_receive_order.2.1 runningState [SupEvt.receiveIssued]
      { runningState with loopPC := LoopPC.receiving }
      (SupStep.receiveIssue runningState rfl rfl rfl) (by simp)).1⟩

end LightCurve
